import Mathlib

/-!
Verification of the Verdict server pipeline: prompt construction
(server/src/ai_new.ts), the analysis stream adapters, the transcription
adapter with its retry loop, and the in-memory session store, shallowly
embedded as executable Lean definitions.
-/

set_option maxRecDepth 4000

/-! ## String containment machinery -/

/-- `leadMatch pat l` is true when `pat` is an initial segment of `l`. -/
def leadMatch : List Char → List Char → Bool
  | [], _ => true
  | _ :: _, [] => false
  | a :: as, b :: bs => a == b && leadMatch as bs

/-- `occursL pat l` is true when `pat` occurs contiguously inside `l`. -/
def occursL (pat : List Char) : List Char → Bool
  | [] => leadMatch pat []
  | c :: cs => leadMatch pat (c :: cs) || occursL pat cs

/-- `strOccurs s pat` is true when `pat` occurs as a substring of `s`. -/
def strOccurs (s pat : String) : Bool :=
  occursL pat.data s.data

theorem string_data_append (a b : String) : (a ++ b).data = a.data ++ b.data := by
  cases a
  cases b
  rfl

theorem leadMatch_append (pat a b : List Char) (h : leadMatch pat a = true) :
    leadMatch pat (a ++ b) = true := by
  induction pat generalizing a with
  | nil => simp [leadMatch]
  | cons p ps ih =>
    cases a with
    | nil => simp [leadMatch] at h
    | cons x xs =>
      simp only [leadMatch, Bool.and_eq_true] at h
      simp only [List.cons_append, leadMatch, Bool.and_eq_true]
      exact ⟨h.1, ih xs h.2⟩

theorem occursL_append_right (pat a b : List Char) (h : occursL pat b = true) :
    occursL pat (a ++ b) = true := by
  induction a with
  | nil => simpa using h
  | cons x xs ih =>
    simp only [List.cons_append, occursL, Bool.or_eq_true]
    exact Or.inr ih

theorem occursL_nil : ∀ l : List Char, occursL [] l = true
  | [] => rfl
  | _ :: _ => by simp [occursL, leadMatch]

theorem occursL_append_left (pat a b : List Char) (h : occursL pat a = true) :
    occursL pat (a ++ b) = true := by
  induction a with
  | nil =>
    cases pat with
    | nil => simpa using occursL_nil b
    | cons p ps => simp [occursL, leadMatch] at h
  | cons x xs ih =>
    simp only [occursL, Bool.or_eq_true] at h
    simp only [List.cons_append, occursL, Bool.or_eq_true]
    cases h with
    | inl h => exact Or.inl (leadMatch_append _ _ _ h)
    | inr h => exact Or.inr (ih h)

theorem strOccurs_append_right (a b pat : String) (h : strOccurs b pat = true) :
    strOccurs (a ++ b) pat = true := by
  unfold strOccurs at h ⊢
  rw [string_data_append]
  exact occursL_append_right _ _ _ h

theorem strOccurs_append_left (a b pat : String) (h : strOccurs a pat = true) :
    strOccurs (a ++ b) pat = true := by
  unfold strOccurs at h ⊢
  rw [string_data_append]
  exact occursL_append_left _ _ _ h

/-! ## Prompt builder (server/src/ai_new.ts) -/

/-- The four counseling modes of `modeSchema` in the shared schema. -/
inductive CounselingMode where
  | evaluator
  | counselor
  | dinner
  | entertainment
deriving DecidableEq

/-- JavaScript truthiness of a `string | null` value: `null` and `""` are falsy. -/
def jsTruthy : Option String → Bool
  | none => false
  | some s => s ≠ ""

/-- `p ? p : dflt` / `p || dflt` on a `string | null` value. -/
def jsOrElse (p : Option String) (dflt : String) : String :=
  match p with
  | none => dflt
  | some s => if s = "" then dflt else s

/-- `INTRO_TEXT[mode].live` / `INTRO_TEXT[mode].separate` from ai_new.ts. -/
def introText (mode : CounselingMode) (isLiveArgument : Bool) : String :=
  match mode, isLiveArgument with
  | .evaluator, true => "Based on the following argument discussion:"
  | .evaluator, false => "Based on their perspectives on the issue:"
  | .counselor, true => "Based on the following argument discussion:"
  | .counselor, false => "Based on their perspectives on the issue:"
  | .dinner, true => "Based on the following discussion about what to eat:"
  | .dinner, false => "Based on their food preferences:"
  | .entertainment, true => "Based on the following discussion about entertainment:"
  | .entertainment, false => "Based on their entertainment preferences:"

/-- The `format` string chosen by the `switch (mode)` in `getUserPrompt`. -/
def formatSection (mode : CounselingMode) : String :=
  match mode with
  | .evaluator =>
      "\n**FORMAT**:\n- **WINNER**: [Name of the winner]\n- **WHY**: 2-3 bullet points explaining why they are right"
  | .counselor =>
      "\n**FORMAT**:\n- **KEY INSIGHTS**: 2-3 bullet points summarizing the conflict\n- **RESOLUTION**: Specific advice to resolve the conflict"
  | .dinner =>
      "\n**FORMAT**:\n- **VERDICT**: \x27You should eat [specific recommendation]\x27\n- **WHY**: 2-3 bullet points explaining the choice\n- **ALTERNATIVES**: 1-2 backup options"
  | .entertainment =>
      "\n**FORMAT**:\n- **VERDICT**: \x27Watch [specific show/movie]\x27\n- **WHY**: 2-3 bullet points justifying the pick\n- **ALTERNATIVES**: 1-2 backup recommendations"

/-- `partner2Statement` in `getUserPrompt`: renders the placeholder when
`partner2Text` is null or empty (JS falsy). -/
def partner2Statement (partner2Name : String) (partner2Text : Option String) : String :=
  match partner2Text with
  | some t =>
      if t = "" then "- " ++ partner2Name ++ ": No input provided"
      else "- " ++ partner2Name ++ ": " ++ t
  | none => "- " ++ partner2Name ++ ": No input provided"

/-- `getUserPrompt` from server/src/ai_new.ts. -/
def getUserPrompt (mode : CounselingMode) (partner1Name partner2Name partner1Text : String)
    (partner2Text : Option String) (isLiveArgument : Bool) : String :=
  introText mode isLiveArgument ++ "\n" ++
    ("- " ++ partner1Name ++ ": " ++ partner1Text ++ "\n" ++
      partner2Statement partner2Name partner2Text) ++ "\n" ++
    formatSection mode

/-! ## Analysis adapter (server/src/ai_new.ts)

The streamed response from the text-generation endpoint is modelled as the
list of chunks `result.textStream` yields; the wall clock is an opaque
ISO-8601 string parameter `now` standing for `new Date().toISOString()`.
-/

/-- `fullResponse += delta` over the whole text stream. -/
def concatStream (chunks : List String) : String :=
  chunks.foldl (· ++ ·) ""

/-- Escaping of one character as performed by `JSON.stringify` inside a
JSON string (quote, backslash and the common control characters). -/
def jsonEscapeChar (c : Char) : String :=
  if c = '"' then "\\\""
  else if c = '\\' then "\\\\"
  else if c = '\n' then "\\n"
  else if c = '\r' then "\\r"
  else if c = '\t' then "\\t"
  else String.singleton c

/-- Escaping of a whole string as performed by `JSON.stringify`. -/
def jsonEscape (s : String) : String :=
  String.join (s.data.map jsonEscapeChar)

/-- `JSON.stringify({ verdict: fullText, timestamp: now })`. -/
def serializeEnvelope (fullText now : String) : String :=
  "\x7b\"verdict\":\"" ++ jsonEscape fullText ++ "\",\"timestamp\":\"" ++ jsonEscape now ++ "\"\x7d"

/-- The body of the `try` block of `analyzeConflict` after the stream has
been issued: accumulate the chunks, reject an empty accumulated string,
otherwise serialize the result envelope. -/
def analyzeConflictTry (chunks : List String) (now : String) : Except String String :=
  let fullResponse := concatStream chunks
  if fullResponse = "" then
    Except.error "Analysis failed - empty response from AI"
  else
    Except.ok (serializeEnvelope fullResponse now)

/-- `analyzeConflict` (stream handling and result construction): any error
raised inside the `try` block is caught and re-thrown as the generic
analysis-failed error. -/
def analyzeConflict (chunks : List String) (now : String) : Except String String :=
  match analyzeConflictTry chunks now with
  | Except.ok v => Except.ok v
  | Except.error _ => Except.error "Analysis failed. Please try again."

/-- The record `{ aiResponse }` returned by `createAnalysisStream`. -/
structure StreamResult where
  aiResponse : String
deriving DecidableEq

/-- `createAnalysisStream` from server/src/ai_new.ts, instrumented with the
list of arguments `onComplete` is invoked with during the run.  The
callback is modelled as `String → Except String Unit` (`Except.error e`
models the callback throwing `e`).  Note: unlike `analyzeConflict`, there
is no emptiness check on the accumulated string; `onComplete` receives the
serialized envelope while the returned record carries the raw accumulated
text; and the `await onComplete(...)` sits inside the `try` block, so a
throwing callback lands in the same generic `catch`. -/
def createAnalysisStream (chunks : List String) (now : String)
    (onComplete : String → Except String Unit) :
    Except String StreamResult × List String :=
  let fullResponse := concatStream chunks
  let finalResponse := serializeEnvelope fullResponse now
  match onComplete finalResponse with
  | Except.ok _ => (Except.ok ⟨fullResponse⟩, [finalResponse])
  | Except.error _ => (Except.error "Analysis failed. Please try again.", [finalResponse])

/-! ## The two earlier copies of `createAnalysisStream`

The unnamed source files part_002 and part_004 each carry an older
`createAnalysisStream` whose user prompt is built inline.  Only the prompt
construction differs from ai_new.ts; it is embedded here per file.
-/

namespace Part002

/-- The `- **${mode === "counselor" ? "ADVICE" : "WINNER"}**: ...` line of the
live-argument and separate-perspectives branches. -/
def modeHeaderLine (mode : CounselingMode) : String :=
  "- **" ++ (if mode = .counselor then "ADVICE" else "WINNER") ++ "**: " ++
    (if mode = .counselor then "2 specific suggestions for better communication"
     else "One clear sentence declaring the winner and why")

/-- Tail shared by the live-argument and separate-perspectives branches. -/
def analysisTail (mode : CounselingMode) : String :=
  "\n\nProvide an analysis.\n\n**FORMAT**:\n- **VERDICT**: One-sentence judgment\n- **KEY POINTS**: 2-3 bullet points supporting the verdict\n" ++
    modeHeaderLine mode

/-- Tail shared by both dinner branches. -/
def dinnerTail : String :=
  "\n\nProvide a meal recommendation.\n\n**FORMAT**:\n- **VERDICT**: \x27You should eat [specific recommendation]\x27\n- **WHY**: 2-3 bullet points explaining the choice\n- **ALTERNATIVES**: 1-2 backup options"

/-- Tail shared by both entertainment branches. -/
def entertainmentTail : String :=
  "\n\nProvide an entertainment recommendation.\n\n**FORMAT**:\n- **VERDICT**: \x27Watch [specific show/movie]\x27\n- **WHY**: 2-3 bullet points justifying the pick\n- **ALTERNATIVES**: 1-2 backup recommendations"

/-- The inline `analysisPrompt` construction of `createAnalysisStream` in
the unnamed source file part_002. -/
def analysisPrompt (partner1Name partner2Name partner1Transcription : String)
    (partner2Transcription : Option String) (mode : CounselingMode)
    (isLiveArgument : Bool) : String :=
  if mode = .dinner then
    if isLiveArgument then
      "Based on the following key points from " ++ partner1Name ++ " and " ++ partner2Name ++
        "\x27s dinner discussion:\n- " ++ partner1Name ++ ": " ++ partner1Transcription ++
        "\n- " ++ partner2Name ++ ": " ++ jsOrElse partner2Transcription "No input provided" ++
        dinnerTail
    else
      "Based on " ++ partner1Name ++ " and " ++ partner2Name ++
        "\x27s separate food preferences:\n- " ++ partner1Name ++ ": " ++ partner1Transcription ++
        "\n- " ++ partner2Name ++ ": " ++ jsOrElse partner2Transcription "No preferences provided" ++
        dinnerTail
  else if mode = .entertainment then
    if isLiveArgument then
      "Based on the following key points from " ++ partner1Name ++ " and " ++ partner2Name ++
        "\x27s entertainment discussion:\n- " ++ partner1Name ++ ": " ++ partner1Transcription ++
        "\n- " ++ partner2Name ++ ": " ++ jsOrElse partner2Transcription "No input provided" ++
        entertainmentTail
    else
      "Based on " ++ partner1Name ++ " and " ++ partner2Name ++
        "\x27s separate entertainment preferences:\n- " ++ partner1Name ++ ": " ++ partner1Transcription ++
        "\n- " ++ partner2Name ++ ": " ++ jsOrElse partner2Transcription "No preferences provided" ++
        entertainmentTail
  else if isLiveArgument then
    "Analyze the following key points from a live argument between " ++ partner1Name ++
      " and " ++ partner2Name ++ ":\n- " ++ partner1Name ++ ": " ++ partner1Transcription ++
      "\n- " ++ partner2Name ++ ": " ++ jsOrElse partner2Transcription "No input provided" ++
      analysisTail mode
  else
    "Analyze the following perspectives from " ++ partner1Name ++ " and " ++ partner2Name ++
      ":\n- " ++ partner1Name ++ ": " ++ partner1Transcription ++
      "\n- " ++ partner2Name ++ ": " ++ jsOrElse partner2Transcription "No perspective provided" ++
      analysisTail mode

end Part002

namespace Part004

/-- The `${mode === "counselor" ? "ADVICE: ..." : "WINNER: ..."}` line of the
live-argument and separate-perspectives branches. -/
def modeTail (mode : CounselingMode) : String :=
  if mode = .counselor then "ADVICE: 2 specific suggestions for better communication"
  else "WINNER: One clear sentence declaring the winner and why"

/-- `${p2 ? `\nContinued <label>: ${p2}` : ''}`: the partner2 segment of the
dinner, entertainment and live-argument branches — rendered as the EMPTY
string when partner2 is null or empty. -/
def continued (label : String) (p2 : Option String) : String :=
  match p2 with
  | some t => if t = "" then "" else "\nContinued " ++ label ++ ": " ++ t
  | none => ""

/-- The inline `analysisPrompt` construction of `createAnalysisStream` in
the unnamed source file part_004. -/
def analysisPrompt (partner1Name partner2Name partner1Transcription : String)
    (partner2Transcription : Option String) (mode : CounselingMode)
    (isLiveArgument : Bool) : String :=
  if mode = .dinner then
    "Based on " ++ partner1Name ++ " and " ++ partner2Name ++ "\x27s " ++
      (if isLiveArgument then "dinner discussion" else "separate food preferences") ++
      ":\n\n" ++ partner1Transcription ++ "\n" ++ continued "discussion" partner2Transcription ++
      "\n\nFORMAT:\nVERDICT: Start with \"You should eat [specific recommendation]\"\nWHY: 2-3 bullet points explaining why\nALTERNATIVES: 1-2 backup options"
  else if mode = .entertainment then
    "Based on " ++ partner1Name ++ " and " ++ partner2Name ++ "\x27s discussion:\n\n" ++
      partner1Transcription ++ "\n" ++ continued "discussion" partner2Transcription ++
      "\n\nFORMAT:\nVERDICT: Start with \"Watch [specific show/movie]\"\nWHY: 2-3 bullet points on why it\x27s perfect\nALTERNATIVES: 1-2 backup recommendations"
  else if isLiveArgument then
    "Analyze this live argument between " ++ partner1Name ++ " and " ++ partner2Name ++
      ":\n\n" ++ partner1Transcription ++ "\n" ++ continued "argument" partner2Transcription ++
      "\n\nFORMAT:\nVERDICT: Start with a clear one-sentence judgment\nKEY POINTS: 2-3 bullet points supporting your verdict\n" ++
      modeTail mode
  else
    "Analyze these perspectives from " ++ partner1Name ++ " and " ++ partner2Name ++
      ":\n\n" ++ partner1Name ++ "\x27s view: " ++ partner1Transcription ++ "\n" ++
      partner2Name ++ "\x27s view: " ++ jsOrElse partner2Transcription "No perspective provided" ++
      "\n\nFORMAT:\nVERDICT: Start with a clear one-sentence judgment\nKEY POINTS: 2-3 bullet points supporting your verdict\n" ++
      modeTail mode

end Part004

/-! ## Transcription adapter (unnamed source file part_003)

`transcribeAudio` is embedded against an explicit environment recording the
outcome of each external step (decode, ffmpeg, ffprobe, upload).  The
ffprobe duration is modelled as a rational (with `none` for a stdout that
parses to NaN, for which `NaN < 0.1` is false).  The segments and words
fields of a successful speech-to-text response are not modelled — no claim
depends on them — so the serialized transcription result is abstracted to
its text field.
-/

/-- One outcome of the `fetch` to the speech-to-text endpoint.  For an
error response, `parsed` is `some (errType, errMessage)` when the body
parses as JSON (`error.type` and `error.message`, each possibly absent) and
`none` when `JSON.parse(errorText)` throws; the model assumes the JSON
parse-error message itself does not contain the substring `quota`. -/
inductive UploadOutcome where
  | ok (text : Option String)
  | httpErr (status : Nat) (body : String) (parsed : Option (Option String × Option String))

/-- `JSON.stringify({ text: ... })` for the successful transcription result
(abstraction of `JSON.stringify({ text, segments, words })`). -/
def serializeTranscriptionText (t : String) : String :=
  "\x7b\"text\":\"" ++ jsonEscape t ++ "\"\x7d"

/-- The operation handed to `retryWithBackoff` in `transcribeAudio`: one
upload attempt, including the error-classification of a failing response.
Note the quota-exhaustion signal (`error.type === 'insufficient_quota'`) is
re-thrown with the message `OpenAI API quota exceeded. ...`, which does NOT
contain the substring `insufficient_quota`. -/
def uploadAttempt (o : UploadOutcome) : Except String String :=
  match o with
  | .ok text =>
    match text with
    | some t =>
        if t = "" then Except.error "No transcription received from API"
        else Except.ok (serializeTranscriptionText t)
    | none => Except.error "No transcription received from API"
  | .httpErr status body parsed =>
    match parsed with
    | some (errType, errMessage) =>
      let m1 :=
        if errType = some "insufficient_quota" then
          "OpenAI API quota exceeded. Please check your billing status and ensure you have available credits."
        else
          "OpenAI API error: " ++ jsOrElse errMessage body
      if strOccurs m1 "quota" then Except.error m1
      else Except.error ("OpenAI API error: " ++ toString status ++ " " ++ body)
    | none => Except.error ("OpenAI API error: " ++ toString status ++ " " ++ body)

/-- `error.message?.includes('insufficient_quota')`: the retry-exemption
predicate of `retryWithBackoff`. -/
def isQuotaMessage (msg : String) : Bool :=
  strOccurs msg "insufficient_quota"

/-- The loop of `retryWithBackoff`: `i` attempts made so far, `fuel`
iterations remaining, `lastError` the latest failure.  Returns the outcome,
the total number of attempts issued, and the list of backoff delays slept
(in ms; `initialDelay * 2^i` after the i-th failed non-quota attempt). -/
def retryGo (op : Nat → Except String String) (initialDelay : Nat) (lastError : String) :
    Nat → Nat → Except String String × Nat × List Nat
  | i, 0 => (Except.error lastError, i, [])
  | i, fuel + 1 =>
    match op i with
    | Except.ok v => (Except.ok v, i + 1, [])
    | Except.error e =>
      if isQuotaMessage e then (Except.error e, i + 1, [])
      else
        let rest := retryGo op initialDelay e (i + 1) fuel
        (rest.1, rest.2.1, initialDelay * 2 ^ i :: rest.2.2)

/-- `retryWithBackoff(operation, maxRetries, initialDelay)` from part_003:
an error whose message contains `insufficient_quota` is re-thrown at once;
any other failure sleeps `initialDelay * 2^i` and retries, up to
`maxRetries` attempts in total (called with `maxRetries = 3`,
`initialDelay = 1000`). -/
def retryWithBackoff (op : Nat → Except String String) (maxRetries initialDelay : Nat) :
    Except String String × Nat × List Nat :=
  retryGo op initialDelay "" 0 maxRetries

/-- The threshold 0.1 of the duration check, as the rational 1/10. -/
def tenthSecond : Rat := ⟨1, 10, by decide, by decide⟩

/-- `duration < 0.1` on the parsed ffprobe output (`none` = NaN, for which
the comparison is false in JS). -/
def durationTooShort : Option Rat → Bool
  | some d => decide (d < tenthSecond)
  | none => false

/-- The environment one `transcribeAudio` call runs against: the base64
input, the byte size of the decoded buffer, the ffmpeg re-encode outcome,
the ffprobe outcome, and the outcome of each upload attempt. -/
structure TranscribeEnv where
  audioBase64 : String
  decodedSize : Nat
  ffmpegOk : Bool
  ffmpegErrMsg : String
  probe : Except String (Option Rat)
  upload : Nat → UploadOutcome

/-- `transcribeAudio` from part_003: validate the input, re-encode, probe
the duration, then upload under `retryWithBackoff`.  Returns the outcome,
the number of upload attempts issued (0 = the speech-to-text endpoint was
never contacted), and the backoff delays slept. -/
def transcribeAudio (env : TranscribeEnv) : Except String String × Nat × List Nat :=
  if env.audioBase64 = "" then
    (Except.error "No audio data provided", 0, [])
  else if env.decodedSize = 0 then
    (Except.error "Audio file is empty", 0, [])
  else if env.ffmpegOk = false then
    (Except.error ("Failed to convert audio format: " ++ env.ffmpegErrMsg), 0, [])
  else
    match env.probe with
    | Except.error e => (Except.error ("Failed to verify audio duration: " ++ e), 0, [])
    | Except.ok d =>
      if durationTooShort d then
        (Except.error "Failed to verify audio duration: Audio recording is too short. Please record for at least 1-2 seconds.", 0, [])
      else
        retryWithBackoff (fun i => uploadAttempt (env.upload i)) 3 1000

/-- An environment in which every upload attempt is answered by the
canonical quota-exhaustion signal. -/
def quotaEnv : TranscribeEnv where
  audioBase64 := "QUJD"
  decodedSize := 3
  ffmpegOk := true
  ffmpegErrMsg := ""
  probe := Except.ok (some 5)
  upload := fun _ =>
    UploadOutcome.httpErr 429 "quota body"
      (some (some "insufficient_quota",
        some "You exceeded your current quota, please check your plan and billing details."))


/-! ## Session store (unnamed source file part_001, schema from part_005)

`MemStorage` holds a `Map<number, Session>` (modelled as an insertion-order
association list with in-place replacement, matching JS `Map.set`) plus a
`currentId` counter starting at 1.  `transcriptionData` is an opaque
nullable blob, modelled as `Option String`.
-/

/-- A row of the `sessions` table (`Session = typeof sessions.$inferSelect`). -/
structure Session where
  id : Nat
  partner1Name : String
  partner2Name : String
  partner1Audio : String
  partner2Audio : String
  mode : String
  aiResponse : Option String
  active : Option Bool
  transcriptionData : Option String
  isLiveArgument : Option Bool
deriving DecidableEq

/-- The `insertSessionSchema` pick of the sessions columns. -/
structure InsertSession where
  partner1Name : String
  partner2Name : String
  partner1Audio : String
  partner2Audio : String
  mode : String
  isLiveArgument : Option Bool
deriving DecidableEq

/-- `Map.get` on the association-list model. -/
def mapGet (m : List (Nat × Session)) (k : Nat) : Option Session :=
  match m with
  | [] => none
  | (k0, v0) :: rest => if k0 = k then some v0 else mapGet rest k

/-- `Map.set` on the association-list model: replace in place when the key
is present, append otherwise (JS `Map` insertion-order semantics). -/
def mapSet (m : List (Nat × Session)) (k : Nat) (v : Session) : List (Nat × Session) :=
  match m with
  | [] => [(k, v)]
  | (k0, v0) :: rest => if k0 = k then (k, v) :: rest else (k0, v0) :: mapSet rest k v

/-- `MemStorage` from part_001. -/
structure MemStorage where
  sessions : List (Nat × Session)
  currentId : Nat
deriving DecidableEq

/-- `new MemStorage()`. -/
def MemStorage.empty : MemStorage :=
  { sessions := [], currentId := 1 }

/-- `createSession`: assign `currentId` (then increment it), default
`active = true`, `aiResponse = null`, `transcriptionData = null`,
`isLiveArgument = insertSession.isLiveArgument ?? null`. -/
def MemStorage.createSession (st : MemStorage) (ins : InsertSession) : Session × MemStorage :=
  let id := st.currentId
  let session : Session :=
    { id := id
      partner1Name := ins.partner1Name
      partner2Name := ins.partner2Name
      partner1Audio := ins.partner1Audio
      partner2Audio := ins.partner2Audio
      mode := ins.mode
      aiResponse := none
      active := some true
      transcriptionData := none
      isLiveArgument := ins.isLiveArgument }
  (session, { sessions := mapSet st.sessions id session, currentId := id + 1 })

/-- `getSession`. -/
def MemStorage.getSession (st : MemStorage) (id : Nat) : Option Session :=
  mapGet st.sessions id

/-- `updateSessionResponse`: throw `Session not found` (leaving the map
untouched) when the id is absent, otherwise store `{ ...session, aiResponse }`
and return the updated session. -/
def MemStorage.updateSessionResponse (st : MemStorage) (id : Nat) (aiResponse : String) :
    Except String Session × MemStorage :=
  match mapGet st.sessions id with
  | none => (Except.error "Session not found", st)
  | some session =>
    let updatedSession := { session with aiResponse := some aiResponse }
    (Except.ok updatedSession,
      { st with sessions := mapSet st.sessions id updatedSession })

/-! ## Request pipeline (server/src/index.ts, POST /api/sessions)

One request transcribes the audio (no store access), then creates a
session, then runs `createAnalysisStream` whose `onComplete` stores the
serialized envelope under the fresh session's id.  `transcriptionFails`
aborts before the session is created; `streamFails` models `streamText`
or the stream itself throwing, in which case `onComplete` never runs.
-/

/-- The data of one POST /api/sessions request, as far as the store is
concerned. -/
structure RequestData where
  insert : InsertSession
  chunks : List String
  now : String
  transcriptionFails : Bool
  streamFails : Bool

/-- The store effect of one POST /api/sessions request. -/
def handleSessionRequest (st : MemStorage) (rd : RequestData) : MemStorage :=
  if rd.transcriptionFails then st
  else
    let (session, st1) := st.createSession rd.insert
    if rd.streamFails then st1
    else
      (st1.updateSessionResponse session.id
        (serializeEnvelope (concatStream rd.chunks) rd.now)).2

/-- The store after a sequence of POST /api/sessions requests. -/
def processAll (st : MemStorage) (rds : List RequestData) : MemStorage :=
  rds.foldl handleSessionRequest st


/-! ### Store lemmas -/

theorem mapGet_mapSet_self (m : List (Nat × Session)) (k : Nat) (v : Session) :
    mapGet (mapSet m k v) k = some v := by
  induction m with
  | nil => simp [mapSet, mapGet]
  | cons hd tl ih =>
    obtain ⟨k0, v0⟩ := hd
    by_cases h : k0 = k
    · simp [mapSet, mapGet, h]
    · simp [mapSet, mapGet, h, ih]

theorem mapGet_mapSet_ne (m : List (Nat × Session)) (k j : Nat) (v : Session)
    (h : j ≠ k) : mapGet (mapSet m k v) j = mapGet m j := by
  have hne1 : ¬ k = j := fun hh => h hh.symm
  induction m with
  | nil => simp [mapSet, mapGet, hne1]
  | cons hd tl ih =>
    obtain ⟨k0, v0⟩ := hd
    by_cases hk : k0 = k
    · subst hk
      simp only [mapSet, if_pos rfl, mapGet, if_neg hne1]
    · simp only [mapSet, if_neg hk, mapGet]
      by_cases hj : k0 = j
      · rw [if_pos hj, if_pos hj]
      · rw [if_neg hj, if_neg hj]
        exact ih

theorem mapGet_mapSet_cases (m : List (Nat × Session)) (k j : Nat) (v w : Session)
    (h : mapGet (mapSet m k v) j = some w) :
    j = k ∨ mapGet m j = some w := by
  by_cases hj : j = k
  · exact Or.inl hj
  · right
    rw [mapGet_mapSet_ne m k j v hj] at h
    exact h

theorem createSession_fst (st : MemStorage) (ins : InsertSession) :
    (st.createSession ins).1.id = st.currentId ∧
      (st.createSession ins).1.aiResponse = none := by
  simp [MemStorage.createSession]

theorem createSession_getSession_ne (st : MemStorage) (ins : InsertSession) (j : Nat)
    (hne : j ≠ st.currentId) :
    (st.createSession ins).2.getSession j = st.getSession j := by
  simp only [MemStorage.createSession, MemStorage.getSession]
  exact mapGet_mapSet_ne _ _ _ _ hne

theorem createSession_currentId (st : MemStorage) (ins : InsertSession) :
    (st.createSession ins).2.currentId = st.currentId + 1 := rfl

theorem updateSessionResponse_getSession_ne (st : MemStorage) (id : Nat) (t : String)
    (j : Nat) (hne : j ≠ id) :
    (st.updateSessionResponse id t).2.getSession j = st.getSession j := by
  simp only [MemStorage.updateSessionResponse]
  cases h : mapGet st.sessions id with
  | none => rfl
  | some s =>
    simp only [MemStorage.getSession]
    exact mapGet_mapSet_ne _ _ _ _ hne

theorem updateSessionResponse_currentId (st : MemStorage) (id : Nat) (t : String) :
    (st.updateSessionResponse id t).2.currentId = st.currentId := by
  simp only [MemStorage.updateSessionResponse]
  cases h : mapGet st.sessions id with
  | none => rfl
  | some s => rfl

theorem updateSessionResponse_getSession_cases (st : MemStorage) (id : Nat) (t : String)
    (j : Nat) (w : Session) (h : (st.updateSessionResponse id t).2.getSession j = some w) :
    j = id ∨ st.getSession j = some w := by
  by_cases hj : j = id
  · exact Or.inl hj
  · right
    rw [updateSessionResponse_getSession_ne st id t j hj] at h
    exact h

/-- The ids present in the store are strictly below `currentId`. -/
def StoreWF (st : MemStorage) : Prop :=
  ∀ id s, st.getSession id = some s → id < st.currentId

theorem storeWF_empty : StoreWF MemStorage.empty := by
  intro id s h
  simp [MemStorage.empty, MemStorage.getSession, mapGet] at h

theorem handle_transcriptionFails (st : MemStorage) (rd : RequestData)
    (h : rd.transcriptionFails = true) : handleSessionRequest st rd = st := by
  simp [handleSessionRequest, h]

theorem handle_streamFails (st : MemStorage) (rd : RequestData)
    (h1 : rd.transcriptionFails = false) (h2 : rd.streamFails = true) :
    handleSessionRequest st rd = (st.createSession rd.insert).2 := by
  simp [handleSessionRequest, h1, h2]

theorem handle_full (st : MemStorage) (rd : RequestData)
    (h1 : rd.transcriptionFails = false) (h2 : rd.streamFails = false) :
    handleSessionRequest st rd =
      ((st.createSession rd.insert).2.updateSessionResponse (st.createSession rd.insert).1.id
        (serializeEnvelope (concatStream rd.chunks) rd.now)).2 := by
  simp [handleSessionRequest, h1, h2]

/-- A session present before a request is returned unchanged afterwards:
the request only ever writes at the fresh id `st.currentId`. -/
theorem handle_preserves (st : MemStorage) (rd : RequestData) (h : StoreWF st)
    (id : Nat) (s : Session) (hget : st.getSession id = some s) :
    (handleSessionRequest st rd).getSession id = some s := by
  have hlt : id < st.currentId := h _ _ hget
  have hne : id ≠ st.currentId := Nat.ne_of_lt hlt
  cases ht : rd.transcriptionFails with
  | true => rw [handle_transcriptionFails st rd ht]; exact hget
  | false =>
    cases hs : rd.streamFails with
    | true =>
      rw [handle_streamFails st rd ht hs, createSession_getSession_ne st _ _ hne]
      exact hget
    | false =>
      rw [handle_full st rd ht hs]
      have hid : (st.createSession rd.insert).1.id = st.currentId := (createSession_fst st _).1
      rw [hid, updateSessionResponse_getSession_ne _ _ _ _ hne,
        createSession_getSession_ne st _ _ hne]
      exact hget

theorem handle_currentId_le (st : MemStorage) (rd : RequestData) :
    st.currentId ≤ (handleSessionRequest st rd).currentId := by
  cases ht : rd.transcriptionFails with
  | true => rw [handle_transcriptionFails st rd ht]
  | false =>
    cases hs : rd.streamFails with
    | true =>
      rw [handle_streamFails st rd ht hs, createSession_currentId]
      exact Nat.le_succ _
    | false =>
      rw [handle_full st rd ht hs, updateSessionResponse_currentId, createSession_currentId]
      exact Nat.le_succ _

theorem storeWF_handle (st : MemStorage) (rd : RequestData) (h : StoreWF st) :
    StoreWF (handleSessionRequest st rd) := by
  cases ht : rd.transcriptionFails with
  | true => rw [handle_transcriptionFails st rd ht]; exact h
  | false =>
    cases hs : rd.streamFails with
    | true =>
      rw [handle_streamFails st rd ht hs]
      intro id s hget
      rw [createSession_currentId]
      by_cases hid : id = st.currentId
      · subst hid; exact Nat.lt_succ_self _
      · rw [createSession_getSession_ne st _ _ hid] at hget
        exact Nat.lt_succ_of_lt (h _ _ hget)
    | false =>
      rw [handle_full st rd ht hs]
      intro id s hget
      rw [updateSessionResponse_currentId, createSession_currentId]
      by_cases hid : id = st.currentId
      · subst hid; exact Nat.lt_succ_self _
      · have hid2 : id ≠ (st.createSession rd.insert).1.id := by
          rw [(createSession_fst st _).1]; exact hid
        rw [updateSessionResponse_getSession_ne _ _ _ _ hid2,
          createSession_getSession_ne st _ _ hid] at hget
        exact Nat.lt_succ_of_lt (h _ _ hget)

theorem processAll_preserves (rds : List RequestData) (st : MemStorage) (h : StoreWF st)
    (id : Nat) (s : Session) (hget : st.getSession id = some s) :
    (processAll st rds).getSession id = some s := by
  induction rds generalizing st with
  | nil => exact hget
  | cons rd rest ih =>
    have h1 := storeWF_handle st rd h
    have hg1 := handle_preserves st rd h id s hget
    simpa [processAll] using ih (handleSessionRequest st rd) h1 hg1

theorem storeWF_processAll (rds : List RequestData) (st : MemStorage) (h : StoreWF st) :
    StoreWF (processAll st rds) := by
  induction rds generalizing st with
  | nil => exact h
  | cons rd rest ih =>
    simpa [processAll] using ih (handleSessionRequest st rd) (storeWF_handle st rd h)

/-! ### Further string lemmas and shared fixtures -/

theorem leadMatch_refl (l : List Char) : leadMatch l l = true := by
  induction l with
  | nil => rfl
  | cons c cs ih => simp [leadMatch, ih]

theorem occursL_self (l : List Char) : occursL l l = true := by
  cases l with
  | nil => rfl
  | cons c cs => simp [occursL, leadMatch_refl]

theorem strOccurs_self (s : String) : strOccurs s s = true :=
  occursL_self s.data

theorem partner2Statement_falsy (p2n : String) (p2t : Option String)
    (h : jsTruthy p2t = false) :
    partner2Statement p2n p2t = "- " ++ p2n ++ ": No input provided" := by
  cases p2t with
  | none => rfl
  | some s =>
    simp only [jsTruthy, ne_eq, decide_not, Bool.not_eq_false', decide_eq_true_eq] at h
    simp [partner2Statement, h]

theorem jsOrElse_falsy (p : Option String) (d : String) (h : jsTruthy p = false) :
    jsOrElse p d = d := by
  cases p with
  | none => rfl
  | some s =>
    simp only [jsTruthy, ne_eq, decide_not, Bool.not_eq_false', decide_eq_true_eq] at h
    simp [jsOrElse, h]

/-- Insert data used by the concrete store scenarios. -/
def insA : InsertSession :=
  { partner1Name := "Alice", partner2Name := "Bob", partner1Audio := "a1",
    partner2Audio := "a2", mode := "counselor", isLiveArgument := some false }

/-- The store holding exactly the session created from `insA`. -/
def stOne : MemStorage := (MemStorage.empty.createSession insA).2

/-- The session `createSession` makes from `insA` (id 1, null aiResponse). -/
def sessOne : Session :=
  { id := 1, partner1Name := "Alice", partner2Name := "Bob", partner1Audio := "a1",
    partner2Audio := "a2", mode := "counselor", aiResponse := none, active := some true,
    transcriptionData := none, isLiveArgument := some false }

/-- A fully-successful POST /api/sessions request. -/
def rdA : RequestData :=
  { insert := insA, chunks := ["ok"], now := "T", transcriptionFails := false,
    streamFails := false }

/-- A second fully-successful POST /api/sessions request. -/
def rdB : RequestData :=
  { insert := insA, chunks := ["again"], now := "U", transcriptionFails := false,
    streamFails := false }

/-- `sessOne` after the pipeline stored the envelope of `rdA`. -/
def sessA : Session := { sessOne with aiResponse := some (serializeEnvelope "ok" "T") }

/-! ## Claim theorems -/

/-- C1: the claim says a quota-exhaustion failure of the speech-to-text
call is surfaced immediately with at most 1 attempt.  The code violates
this: the attempt re-throws the quota signal with the message
`OpenAI API quota exceeded. ...`, which does not contain the substring
`insufficient_quota`, so the exemption branch of `retryWithBackoff` never
fires.  In `quotaEnv` — every attempt answered by an error body with
`error.type = insufficient_quota` — all 3 attempts are issued, with
backoff delays 1000, 2000 and 4000 ms, before the quota error surfaces. -/
theorem C1_quota_exhaustion_retried :
    (transcribeAudio quotaEnv).2.1 = 3 ∧
    (transcribeAudio quotaEnv).2.2 = [1000, 2000, 4000] ∧
    (transcribeAudio quotaEnv).1 =
      Except.error "OpenAI API quota exceeded. Please check your billing status and ensure you have available credits." ∧
    isQuotaMessage
      "OpenAI API quota exceeded. Please check your billing status and ensure you have available credits." = false := by
  exact ⟨by decide, by decide, rfl, by decide⟩

/-- C2 counterexample: with an upstream stream yielding zero chunks and a
completing callback, `createAnalysisStream` returns successfully with an
empty verdict instead of failing. -/
theorem C2_counterexample_stream_empty_success :
    (createAnalysisStream [] "2024-01-01T00:00:00.000Z" (fun _ => Except.ok ())).1 =
      Except.ok ⟨""⟩ := rfl

/-- C2 amended: on a zero-chunk stream, `analyzeConflict` raises the
empty-response failure inside its try block and surfaces the generic
analysis-failed error; `createAnalysisStream` has no emptiness check — with
a callback that completes it succeeds with the empty verdict, after passing
the empty-verdict envelope to `onComplete`. -/
theorem C2_amended_empty_response (chunks : List String) (now : String)
    (onComplete : String → Except String Unit) (hempty : concatStream chunks = "") :
    analyzeConflictTry chunks now = Except.error "Analysis failed - empty response from AI" ∧
    analyzeConflict chunks now = Except.error "Analysis failed. Please try again." ∧
    (onComplete (serializeEnvelope "" now) = Except.ok () →
      createAnalysisStream chunks now onComplete =
        (Except.ok ⟨""⟩, [serializeEnvelope "" now])) := by
  refine ⟨?_, ?_, ?_⟩
  · simp [analyzeConflictTry, hempty]
  · simp [analyzeConflict, analyzeConflictTry, hempty]
  · intro hcb
    simp [createAnalysisStream, hempty, hcb]

theorem C2_amended_empty_response_witness :
    concatStream ([] : List String) = "" ∧
    analyzeConflict [] "T" = Except.error "Analysis failed. Please try again." ∧
    createAnalysisStream [] "T" (fun _ => Except.ok ()) =
      (Except.ok ⟨""⟩, [serializeEnvelope "" "T"]) := by
  have h := C2_amended_empty_response [] "T" (fun _ => Except.ok ()) rfl
  exact ⟨rfl, h.2.1, h.2.2 rfl⟩

/-- C3 counterexample: in part_004's `createAnalysisStream`, with
mode = dinner, isLiveArgument = false and a null partner2 transcription,
the rendered user prompt contains no placeholder of any kind — the
partner2 segment is rendered as the empty string, i.e. partner2 is omitted
entirely. -/
theorem C3_counterexample_part004_omits_partner2 :
    Part004.analysisPrompt "Alice" "Bob" "pizza" none .dinner false =
      "Based on Alice and Bob\x27s separate food preferences:\n\npizza\n\n\nFORMAT:\nVERDICT: Start with \"You should eat [specific recommendation]\"\nWHY: 2-3 bullet points explaining why\nALTERNATIVES: 1-2 backup options" ∧
    strOccurs (Part004.analysisPrompt "Alice" "Bob" "pizza" none .dinner false)
      "No input provided" = false ∧
    strOccurs (Part004.analysisPrompt "Alice" "Bob" "pizza" none .dinner false)
      "No preferences provided" = false ∧
    strOccurs (Part004.analysisPrompt "Alice" "Bob" "pizza" none .dinner false)
      "No perspective provided" = false ∧
    strOccurs (Part004.analysisPrompt "Alice" "Bob" "pizza" none .dinner false)
      "provided" = false := by
  exact ⟨rfl, by decide, by decide, by decide, by decide⟩

/-- When partner2 is JS-falsy, the `jsOrElse` segment IS the placeholder,
so the placeholder occurs in it. -/
theorem strOccurs_jsOrElse_self (p : Option String) (d : String) (h : jsTruthy p = false) :
    strOccurs (jsOrElse p d) d = true := by
  rw [jsOrElse_falsy _ _ h]
  exact strOccurs_self d

/-- C3 amended: `getUserPrompt` (ai_new.ts) always renders the explicit
`No input provided` placeholder for a null/empty partner2 — every mode,
both isLiveArgument values, any names and partner1 text; part_002's
`createAnalysisStream` renders one of its placeholders (`No input
provided`, `No preferences provided`, `No perspective provided`) in every
branch; part_004's `createAnalysisStream` renders its `No perspective
provided` placeholder only in the separate counselor/evaluator branch (its
dinner, entertainment and live-argument branches omit partner2 entirely,
as the counterexample shows). -/
theorem C3_amended_partner2_placeholder (mode : CounselingMode) (isLive : Bool)
    (p1n p2n p1t : String) (p2t : Option String) (h : jsTruthy p2t = false) :
    strOccurs (getUserPrompt mode p1n p2n p1t p2t isLive) "No input provided" = true ∧
    (strOccurs (Part002.analysisPrompt p1n p2n p1t p2t mode isLive) "No input provided" = true ∨
      strOccurs (Part002.analysisPrompt p1n p2n p1t p2t mode isLive) "No preferences provided" = true ∨
      strOccurs (Part002.analysisPrompt p1n p2n p1t p2t mode isLive) "No perspective provided" = true) ∧
    ((mode = .counselor ∨ mode = .evaluator) → isLive = false →
      strOccurs (Part004.analysisPrompt p1n p2n p1t p2t mode isLive) "No perspective provided" = true) := by
  refine ⟨?_, ?_, ?_⟩
  · unfold getUserPrompt
    apply strOccurs_append_left
    apply strOccurs_append_left
    apply strOccurs_append_right
    apply strOccurs_append_right
    rw [partner2Statement_falsy _ _ h]
    exact strOccurs_append_right _ _ _ (by decide)
  · cases mode <;> cases isLive <;>
      simp only [Part002.analysisPrompt, reduceIte]
    case evaluator.false =>
      exact Or.inr (Or.inr (strOccurs_append_left _ _ _
        (strOccurs_append_right _ _ _ (strOccurs_jsOrElse_self _ _ h))))
    case evaluator.true =>
      exact Or.inl (strOccurs_append_left _ _ _
        (strOccurs_append_right _ _ _ (strOccurs_jsOrElse_self _ _ h)))
    case counselor.false =>
      exact Or.inr (Or.inr (strOccurs_append_left _ _ _
        (strOccurs_append_right _ _ _ (strOccurs_jsOrElse_self _ _ h))))
    case counselor.true =>
      exact Or.inl (strOccurs_append_left _ _ _
        (strOccurs_append_right _ _ _ (strOccurs_jsOrElse_self _ _ h)))
    case dinner.false =>
      exact Or.inr (Or.inl (strOccurs_append_left _ _ _
        (strOccurs_append_right _ _ _ (strOccurs_jsOrElse_self _ _ h))))
    case dinner.true =>
      exact Or.inl (strOccurs_append_left _ _ _
        (strOccurs_append_right _ _ _ (strOccurs_jsOrElse_self _ _ h)))
    case entertainment.false =>
      exact Or.inr (Or.inl (strOccurs_append_left _ _ _
        (strOccurs_append_right _ _ _ (strOccurs_jsOrElse_self _ _ h))))
    case entertainment.true =>
      exact Or.inl (strOccurs_append_left _ _ _
        (strOccurs_append_right _ _ _ (strOccurs_jsOrElse_self _ _ h)))
  · intro hmode hlive
    subst hlive
    rcases hmode with rfl | rfl <;>
      simp only [Part004.analysisPrompt, reduceIte] <;>
      exact strOccurs_append_left _ _ _ (strOccurs_append_left _ _ _
        (strOccurs_append_right _ _ _ (strOccurs_jsOrElse_self _ _ h)))

theorem C3_amended_partner2_placeholder_witness :
    jsTruthy none = false ∧
    strOccurs (getUserPrompt .evaluator "A" "B" "x" none false) "No input provided" = true ∧
    strOccurs (Part004.analysisPrompt "A" "B" "x" none .evaluator false)
      "No perspective provided" = true := by
  have h := C3_amended_partner2_placeholder .evaluator false "A" "B" "x" none (by decide)
  exact ⟨by decide, h.1, h.2.2 (Or.inr rfl) rfl⟩

/-- C4 counterexample: the claim says a throwing `onComplete` propagates
unchanged to the caller.  It does not: the `await onComplete(...)` sits
inside the try block, so the callback failure `boom` is caught and
re-thrown as the generic analysis-failed error. -/
theorem C4_counterexample_callback_error_rewrapped :
    (createAnalysisStream ["Hi"] "T" (fun _ => Except.error "boom")).1 =
      Except.error "Analysis failed. Please try again." ∧
    "Analysis failed. Please try again." ≠ "boom" :=
  ⟨rfl, by decide⟩

/-- C4 amended: `onComplete` is invoked exactly once, after the stream has
been fully accumulated, with the serialized envelope as its argument; but
when the callback throws, the adapter catches the failure in its generic
boundary catch and re-throws the analysis-failed error instead of
propagating the callback failure unchanged. -/
theorem C4_amended_onComplete_once (chunks : List String) (now : String)
    (onComplete : String → Except String Unit) :
    (createAnalysisStream chunks now onComplete).2 =
      [serializeEnvelope (concatStream chunks) now] ∧
    (∀ e, onComplete (serializeEnvelope (concatStream chunks) now) = Except.error e →
      (createAnalysisStream chunks now onComplete).1 =
        Except.error "Analysis failed. Please try again.") ∧
    (∀ u, onComplete (serializeEnvelope (concatStream chunks) now) = Except.ok u →
      (createAnalysisStream chunks now onComplete).1 = Except.ok ⟨concatStream chunks⟩) := by
  cases hcb : onComplete (serializeEnvelope (concatStream chunks) now) with
  | ok u => simp [createAnalysisStream, hcb]
  | error e => simp [createAnalysisStream, hcb]

theorem C4_amended_onComplete_once_witness :
    (createAnalysisStream ["z"] "T" (fun _ => Except.error "x")).2 =
      [serializeEnvelope "z" "T"] ∧
    (createAnalysisStream ["z"] "T" (fun _ => Except.error "x")).1 =
      Except.error "Analysis failed. Please try again." := by
  have h := C4_amended_onComplete_once ["z"] "T" (fun _ => Except.error "x")
  exact ⟨h.1, h.2.1 "x" rfl⟩

/-- C5 counterexample: the claim says every successful call of both
adapters returns the serialized `{ verdict, timestamp }` envelope.
`createAnalysisStream` does not: it returns the raw accumulated text
(`Hello`), not the serialized envelope. -/
theorem C5_counterexample_stream_returns_raw_text :
    (createAnalysisStream ["Hello"] "T" (fun _ => Except.ok ())).1 =
      Except.ok ⟨"Hello"⟩ ∧
    "Hello" ≠ serializeEnvelope "Hello" "T" :=
  ⟨rfl, by decide⟩

/-- C5 amended: on success `analyzeConflict` returns the accumulated text
wrapped as the serialized `{ verdict, timestamp }` envelope, while
`createAnalysisStream` passes that serialized envelope to `onComplete` but
returns the raw accumulated text as `aiResponse`. -/
theorem C5_amended_envelope (chunks : List String) (now : String)
    (onComplete : String → Except String Unit) (h : concatStream chunks ≠ "")
    (hcb : onComplete (serializeEnvelope (concatStream chunks) now) = Except.ok ()) :
    analyzeConflict chunks now = Except.ok (serializeEnvelope (concatStream chunks) now) ∧
    createAnalysisStream chunks now onComplete =
      (Except.ok ⟨concatStream chunks⟩, [serializeEnvelope (concatStream chunks) now]) := by
  constructor
  · simp [analyzeConflict, analyzeConflictTry, h]
  · simp [createAnalysisStream, hcb]

theorem C5_amended_envelope_witness :
    concatStream ["Hello"] ≠ "" ∧
    analyzeConflict ["Hello"] "T" = Except.ok (serializeEnvelope "Hello" "T") ∧
    createAnalysisStream ["Hello"] "T" (fun _ => Except.ok ()) =
      (Except.ok ⟨"Hello"⟩, [serializeEnvelope "Hello" "T"]) := by
  have h := C5_amended_envelope ["Hello"] "T" (fun _ => Except.ok ()) (by decide) rfl
  exact ⟨by decide, h.1, h.2⟩

/-- C6: in the request pipeline a session's `aiResponse` transitions from
null to non-null at most once.  `createSession` initializes `aiResponse`
to null; within its own request the pipeline performs the single
`updateSessionResponse` on the fresh id; and any session present in the
store before a request — in particular one whose `aiResponse` is already
set — is returned completely unchanged by all subsequent requests, so a
set `aiResponse` is never overwritten with a second value. -/
theorem C6_aiResponse_set_at_most_once (rds1 rds2 : List RequestData) (id : Nat) :
    (∀ s : Session, (processAll MemStorage.empty rds1).getSession id = some s →
      (processAll (processAll MemStorage.empty rds1) rds2).getSession id = some s) ∧
    (∀ (st : MemStorage) (ins : InsertSession),
      ((st.createSession ins).1).aiResponse = none) := by
  constructor
  · intro s hs
    exact processAll_preserves rds2 _ (storeWF_processAll rds1 _ storeWF_empty) id s hs
  · intro st ins
    rfl

theorem C6_aiResponse_set_at_most_once_witness :
    (processAll MemStorage.empty [rdA]).getSession 1 = some sessA ∧
    sessA.aiResponse = some (serializeEnvelope "ok" "T") ∧
    (processAll (processAll MemStorage.empty [rdA]) [rdB]).getSession 1 = some sessA := by
  refine ⟨rfl, rfl, ?_⟩
  exact (C6_aiResponse_set_at_most_once [rdA] [rdB] 1).1 sessA rfl

/-- C7: `updateSessionResponse` on an absent id fails with the
`Session not found` error and leaves the store unchanged; on a present id
it succeeds and a subsequent `getSession` returns the session with
`aiResponse` equal to exactly the text passed in. -/
theorem C7_updateSessionResponse_spec (st : MemStorage) (id : Nat) (t : String) :
    (st.getSession id = none →
      st.updateSessionResponse id t = (Except.error "Session not found", st)) ∧
    (∀ s, st.getSession id = some s →
      (st.updateSessionResponse id t).1 = Except.ok { s with aiResponse := some t } ∧
      (st.updateSessionResponse id t).2.getSession id = some { s with aiResponse := some t }) := by
  constructor
  · intro h
    have h' : mapGet st.sessions id = none := h
    simp [MemStorage.updateSessionResponse, h']
  · intro s hs
    have hs' : mapGet st.sessions id = some s := hs
    constructor
    · simp [MemStorage.updateSessionResponse, hs']
    · simp [MemStorage.updateSessionResponse, hs', MemStorage.getSession, mapGet_mapSet_self]

theorem C7_updateSessionResponse_spec_witness :
    stOne.getSession 2 = none ∧
    stOne.updateSessionResponse 2 "resp" = (Except.error "Session not found", stOne) ∧
    stOne.getSession 1 = some sessOne ∧
    (stOne.updateSessionResponse 1 "resp").1 =
      Except.ok { sessOne with aiResponse := some "resp" } ∧
    (stOne.updateSessionResponse 1 "resp").2.getSession 1 =
      some { sessOne with aiResponse := some "resp" } := by
  have habs := (C7_updateSessionResponse_spec stOne 2 "resp").1 rfl
  have hpres := (C7_updateSessionResponse_spec stOne 1 "resp").2 sessOne rfl
  exact ⟨rfl, habs, rfl, hpres.1, hpres.2⟩

/-- C8 counterexample: for mode = counselor, the rendered user prompt
contains none of the literal field names the spec enumerates for the
output sections (`VERDICT`, `WHY`, `KEY POINTS`, `ALTERNATIVES`, `ADVICE`,
`WINNER`); its actual section headers are `KEY INSIGHTS` and
`RESOLUTION`. -/
theorem C8_counterexample_counselor_headers :
    strOccurs (getUserPrompt .counselor "Alice" "Bob" "hello" (some "world") false)
      "VERDICT" = false ∧
    strOccurs (getUserPrompt .counselor "Alice" "Bob" "hello" (some "world") false)
      "KEY POINTS" = false ∧
    strOccurs (getUserPrompt .counselor "Alice" "Bob" "hello" (some "world") false)
      "ADVICE" = false ∧
    strOccurs (getUserPrompt .counselor "Alice" "Bob" "hello" (some "world") false)
      "WHY" = false ∧
    strOccurs (getUserPrompt .counselor "Alice" "Bob" "hello" (some "world") false)
      "ALTERNATIVES" = false ∧
    strOccurs (getUserPrompt .counselor "Alice" "Bob" "hello" (some "world") false)
      "WINNER" = false ∧
    strOccurs (getUserPrompt .counselor "Alice" "Bob" "hello" (some "world") false)
      "KEY INSIGHTS" = true ∧
    strOccurs (getUserPrompt .counselor "Alice" "Bob" "hello" (some "world") false)
      "RESOLUTION" = true := by
  exact ⟨by decide, by decide, by decide, by decide, by decide, by decide, by decide, by decide⟩

/-- The literal section headers the code's `format` actually mandates per
mode. -/
def modeHeaders : CounselingMode → List String
  | .evaluator => ["WINNER", "WHY"]
  | .counselor => ["KEY INSIGHTS", "RESOLUTION"]
  | .dinner => ["VERDICT", "WHY", "ALTERNATIVES"]
  | .entertainment => ["VERDICT", "WHY", "ALTERNATIVES"]

/-- C8 amended: for every mode, both isLiveArgument values and any names
and texts, the user prompt contains the `**FORMAT**` marker and the
mode-specific literal section headers actually emitted by the code:
evaluator ⇒ WINNER, WHY; counselor ⇒ KEY INSIGHTS, RESOLUTION (not the
spec's KEY POINTS / ADVICE vocabulary); dinner and entertainment ⇒
VERDICT, WHY, ALTERNATIVES — so the dinner instance the claim singles out
holds. -/
theorem C8_amended_mode_headers (mode : CounselingMode) (isLive : Bool)
    (p1n p2n p1t : String) (p2t : Option String) :
    strOccurs (getUserPrompt mode p1n p2n p1t p2t isLive) "**FORMAT**" = true ∧
    ∀ hd ∈ modeHeaders mode,
      strOccurs (getUserPrompt mode p1n p2n p1t p2t isLive) hd = true := by
  cases mode <;>
    refine ⟨strOccurs_append_right _ _ _ (by decide), ?_⟩ <;>
    intro hd hmem <;>
    simp only [modeHeaders, List.mem_cons, List.not_mem_nil, or_false] at hmem
  case evaluator =>
    rcases hmem with rfl | rfl <;> exact strOccurs_append_right _ _ _ (by decide)
  case counselor =>
    rcases hmem with rfl | rfl <;> exact strOccurs_append_right _ _ _ (by decide)
  case dinner =>
    rcases hmem with rfl | rfl | rfl <;> exact strOccurs_append_right _ _ _ (by decide)
  case entertainment =>
    rcases hmem with rfl | rfl | rfl <;> exact strOccurs_append_right _ _ _ (by decide)

theorem C8_amended_mode_headers_witness :
    strOccurs (getUserPrompt .dinner "A" "B" "x" (some "y") false) "**FORMAT**" = true ∧
    strOccurs (getUserPrompt .dinner "A" "B" "x" (some "y") false) "VERDICT" = true ∧
    strOccurs (getUserPrompt .dinner "A" "B" "x" (some "y") false) "WHY" = true ∧
    strOccurs (getUserPrompt .dinner "A" "B" "x" (some "y") false) "ALTERNATIVES" = true := by
  have h := C8_amended_mode_headers .dinner false "A" "B" "x" (some "y")
  exact ⟨h.1, h.2 "VERDICT" (by simp [modeHeaders]), h.2 "WHY" (by simp [modeHeaders]),
    h.2 "ALTERNATIVES" (by simp [modeHeaders])⟩

/-- C9: whenever the probed duration parses below 0.1 seconds, the call
fails with the duration-specific error and zero upload attempts are
issued — the speech-to-text endpoint is never contacted. -/
theorem C9_short_duration_no_upload (env : TranscribeEnv) (d : Rat)
    (h1 : env.audioBase64 ≠ "") (h2 : env.decodedSize ≠ 0) (h3 : env.ffmpegOk = true)
    (h4 : env.probe = Except.ok (some d)) (h5 : d < tenthSecond) :
    (transcribeAudio env).1 =
      Except.error "Failed to verify audio duration: Audio recording is too short. Please record for at least 1-2 seconds." ∧
    (transcribeAudio env).2.1 = 0 := by
  have hts : durationTooShort (some d) = true := by
    simp [durationTooShort, h5]
  simp [transcribeAudio, h1, h2, h3, h4, hts]

/-- A 0.05-second probed duration. -/
def twentiethSecond : Rat := ⟨1, 20, by decide, by decide⟩

/-- An environment whose probe reports a 0.05-second duration. -/
def shortEnv : TranscribeEnv where
  audioBase64 := "QUJD"
  decodedSize := 3
  ffmpegOk := true
  ffmpegErrMsg := ""
  probe := Except.ok (some twentiethSecond)
  upload := fun _ => UploadOutcome.ok (some "hi")

theorem C9_short_duration_no_upload_witness :
    (transcribeAudio shortEnv).1 =
      Except.error "Failed to verify audio duration: Audio recording is too short. Please record for at least 1-2 seconds." ∧
    (transcribeAudio shortEnv).2.1 = 0 := by
  exact C9_short_duration_no_upload shortEnv twentiethSecond (by decide) (by decide) rfl rfl
    (by decide)

/-- C10: `updateSessionResponse` on a present id modifies only the
`aiResponse` field of that session — every other field is unchanged — and
every other session in the store, as well as the id counter, is left
untouched. -/
theorem C10_update_frame (st : MemStorage) (id : Nat) (t : String) (s : Session)
    (h : st.getSession id = some s) :
    ∃ u, (st.updateSessionResponse id t).2.getSession id = some u ∧
      u.aiResponse = some t ∧ u.id = s.id ∧ u.partner1Name = s.partner1Name ∧
      u.partner2Name = s.partner2Name ∧ u.partner1Audio = s.partner1Audio ∧
      u.partner2Audio = s.partner2Audio ∧ u.mode = s.mode ∧ u.active = s.active ∧
      u.transcriptionData = s.transcriptionData ∧ u.isLiveArgument = s.isLiveArgument ∧
      (∀ j, j ≠ id → (st.updateSessionResponse id t).2.getSession j = st.getSession j) ∧
      (st.updateSessionResponse id t).2.currentId = st.currentId := by
  have h' : mapGet st.sessions id = some s := h
  refine ⟨{ s with aiResponse := some t }, ?_, rfl, rfl, rfl, rfl, rfl, rfl, rfl, rfl, rfl,
    rfl, ?_, ?_⟩
  · simp [MemStorage.updateSessionResponse, h', MemStorage.getSession, mapGet_mapSet_self]
  · intro j hj
    exact updateSessionResponse_getSession_ne st id t j hj
  · exact updateSessionResponse_currentId st id t

theorem C10_update_frame_witness :
    (stOne.updateSessionResponse 1 "resp").2.currentId = stOne.currentId ∧
    (stOne.updateSessionResponse 1 "resp").2.getSession 2 = stOne.getSession 2 := by
  obtain ⟨u, hu, h2, h3, h4, h5, h6, h7, h8, h9, h10, h11, hframe, hcid⟩ :=
    C10_update_frame stOne 1 "resp" sessOne rfl
  exact ⟨hcid, hframe 2 (by decide)⟩
